import Mathlib

/-!
Shallow embedding of `scripts/parse_results.py` (Trivy JSON scan-report
summarizer) and verification of its specified behavior.

Modelling conventions:
* Python dict lookups with defaults (`d.get(k, default)`) become `Option.getD`
  on optional record fields; a field that is absent in the JSON is `none`.
* Python string slicing `s[:60]` becomes `pyTake 60`, string repetition
  `c * n` becomes `strRepeat`, and `f"{x:<w}"` padding becomes `ljust`.
* `list.index` (which raises `ValueError` on a missing element) becomes the
  `Option`-valued `listIndex` / `sevIndex?`; an uncaught exception is `none`.
* `sorted(vulns, key=...)` is Python's stable ascending sort by key; it is
  embedded as `List.insertionSort` with the reflexive-total key order, which
  is a stable sort (stability is proved below, not assumed).
* Each `print(...)` call contributes one element to a `List String` of output;
  `datetime.now()` is an input parameter `now`.
* `main` becomes `mainModel`: file loading is abstracted as an
  `Except LoadError TrivyDoc` input (the `try/except` in `main` maps the two
  caught exceptions to `[ERROR]` lines and exit code 1); the result records
  the exit code, the printed lines, whether an uncaught exception escaped
  (`raised`), and any files written.  The parsed `--output` argument is never
  read again in the script, so no branch of `mainModel` performs a file write.
-/

namespace ParseResults

/-- Line 19: `SEVERITY_ORDER = ["CRITICAL", "HIGH", "MEDIUM", "LOW", "UNKNOWN"]`. -/
def SEVERITY_ORDER : List String := ["CRITICAL", "HIGH", "MEDIUM", "LOW", "UNKNOWN"]

/-- Lines 20-26: the `SEVERITY_COLORS` dict, as a total function with the
`.get(severity, "")` default built in. -/
def SEVERITY_COLORS (s : String) : String :=
  if s = "CRITICAL" then "\x1b[91m"
  else if s = "HIGH" then "\x1b[93m"
  else if s = "MEDIUM" then "\x1b[94m"
  else if s = "LOW" then "\x1b[92m"
  else if s = "UNKNOWN" then "\x1b[90m"
  else ""

/-- Line 27: `RESET = "\033[0m"`. -/
def RESET : String := "\x1b[0m"

/-- Lines 30-31: `color(text, severity)`. -/
def color (text : String) (severity : String) : String :=
  SEVERITY_COLORS severity ++ text ++ RESET

/-- Python `list.index` as an `Option`: `none` models the raised `ValueError`
when the element is absent; otherwise the index of the first occurrence. -/
def listIndex (s : String) : List String → Option Nat
  | [] => none
  | x :: xs => if x = s then some 0 else (listIndex s xs).map (· + 1)

/-- `SEVERITY_ORDER.index(s)` (used at lines 98, 142, 144). -/
def sevIndex? (s : String) : Option Nat := listIndex s SEVERITY_ORDER

/-- Python string slicing `s[:n]`: the first `n` characters. -/
def pyTake (n : Nat) (s : String) : String := String.mk (s.data.take n)

/-- Python string repetition `s * n`. -/
def strRepeat (s : String) : Nat → String
  | 0 => ""
  | n + 1 => s ++ strRepeat s n

/-- Python format padding `f"{s:<w}"`: left-justify to width `w` with spaces
(a string already at least `w` long is unchanged). -/
def ljust (s : String) (w : Nat) : String := s ++ strRepeat " " (w - s.length)

/-- One vulnerability object inside a `Result`, with every field optional
(lines 45-54 read each with a `.get` default). -/
structure RawVuln where
  PkgName : Option String
  InstalledVersion : Option String
  FixedVersion : Option String
  Severity : Option String
  VulnerabilityID : Option String
  Title : Option String
  deriving DecidableEq

/-- One misconfiguration object inside a `Result` (lines 62-69). -/
structure RawMisconfig where
  ID : Option String
  Severity : Option String
  Title : Option String
  Status : Option String
  deriving DecidableEq

/-- One entry of the `Results` array: a scanned target with its optional
vulnerability and misconfiguration lists (`result.get("Vulnerabilities") or []`
treats both `null` and absence as empty). -/
structure RawResult where
  Target : Option String
  Vulnerabilities : Option (List RawVuln)
  Misconfigurations : Option (List RawMisconfig)
  deriving DecidableEq

/-- The parsed root document; `data.get("Results", [])` treats a missing key
as an empty list. -/
structure TrivyDoc where
  Results : Option (List RawResult)
  deriving DecidableEq

/-- The flat vulnerability record built at lines 46-54. -/
structure Vuln where
  target : String
  pkg : String
  installed : String
  fixed : String
  severity : String
  cve : String
  title : String
  deriving DecidableEq

/-- The flat misconfiguration record built at lines 63-69. -/
structure Misconfig where
  target : String
  id : String
  severity : String
  title : String
  status : String
  deriving DecidableEq

/-- Lines 40-55: `extract_vulnerabilities`. -/
def extract_vulnerabilities (data : TrivyDoc) : List Vuln :=
  (data.Results.getD []).flatMap fun result =>
    (result.Vulnerabilities.getD []).map fun v =>
      { target := result.Target.getD "unknown"
        pkg := v.PkgName.getD "-"
        installed := v.InstalledVersion.getD "-"
        fixed := v.FixedVersion.getD "-"
        severity := v.Severity.getD "UNKNOWN"
        cve := v.VulnerabilityID.getD "-"
        title := pyTake 60 (v.Title.getD "-") }

/-- Lines 58-70: `extract_misconfigs`. -/
def extract_misconfigs (data : TrivyDoc) : List Misconfig :=
  (data.Results.getD []).flatMap fun result =>
    (result.Misconfigurations.getD []).map fun m =>
      { target := result.Target.getD "unknown"
        id := m.ID.getD "-"
        severity := m.Severity.getD "UNKNOWN"
        title := pyTake 60 (m.Title.getD "-")
        status := m.Status.getD "-" }

/-- Lines 74-76: the `defaultdict(int)` severity tally, by left fold as the
Python loop does; `counts.get(sev, 0)` is simply application. -/
def tally (vulns : List Vuln) : String → Nat :=
  vulns.foldl (fun counts v s => if s = v.severity then counts s + 1 else counts s)
    fun _ => 0

/-- Lines 85-87: one severity line of the bar chart:
`bar = "█" * min(count, 40)` then
`print(f"  {color(f'{sev:<10}', sev)} {color(bar, sev)} {count}")`. -/
def sevLine (counts : String → Nat) (sev : String) : String :=
  let count := counts sev
  let bar := strRepeat "█" (min count 40)
  "  " ++ color (ljust sev 10) sev ++ " " ++ color bar sev ++ " " ++ toString count

/-- Lines 100-104: one row of the top-20 vulnerability table. -/
def vulnRow (v : Vuln) : String :=
  "  " ++ color (ljust v.severity 10) v.severity ++ " " ++ ljust v.cve 20 ++ " "
    ++ ljust v.pkg 20 ++ " " ++ ljust v.fixed 15 ++ " " ++ v.title

/-- Lines 111-112: one row of the misconfiguration listing. -/
def misconfigRow (m : Misconfig) : String :=
  "  " ++ color (ljust m.severity 10) m.severity ++ " " ++ ljust m.id 15 ++ " " ++ m.title

/-- The key order used by `sorted(vulns, key=lambda x: SEVERITY_ORDER.index(x["severity"]))`
at line 98: compare vulnerabilities by severity index.  (`sevKey` applies
`getD 0`; `sortVulns` only ever sorts lists on which every lookup succeeds.) -/
def sevKey (v : Vuln) : Nat := (sevIndex? v.severity).getD 0

/-- Key comparison for the line-98 sort. -/
def vulnLE (a b : Vuln) : Prop := sevKey a ≤ sevKey b

instance : DecidableRel vulnLE := fun a b => Nat.decLe (sevKey a) (sevKey b)

instance : IsTotal Vuln vulnLE := ⟨fun a b => Nat.le_total (sevKey a) (sevKey b)⟩

instance : IsTrans Vuln vulnLE := ⟨fun _ _ _ h h' => Nat.le_trans h h'⟩

/-- Line 98: `sorted(vulns, key=lambda x: SEVERITY_ORDER.index(x["severity"]))`.
Python computes the key of every element (in list order) before sorting, so a
single unrecognized severity raises `ValueError` and nothing is sorted:
that is the `none` branch.  Otherwise the result is Python's stable ascending
sort by key, embedded as insertion sort with the non-strict key order. -/
def sortVulns (vulns : List Vuln) : Option (List Vuln) :=
  if vulns.all fun v => (sevIndex? v.severity).isSome then
    some (List.insertionSort vulnLE vulns)
  else none

/-- Lines 78-81: the header block (`now` stands for the formatted
`datetime.now()` string). -/
def summaryHeader (now : String) : List String :=
  ["\n" ++ strRepeat "═" 70,
   "  🔐 TRIVY SCAN SUMMARY",
   "  Generated: " ++ now,
   strRepeat "═" 70]

/-- Lines 83-87: the severity bar chart section. -/
def barSection (counts : String → Nat) : List String :=
  "\n  VULNERABILITIES BY SEVERITY:" :: SEVERITY_ORDER.map (sevLine counts)

/-- Lines 89-90: the totals. -/
def totalsSection (vulns : List Vuln) (misconfigs : List Misconfig) : List String :=
  ["\n  Total vulnerabilities : " ++ toString vulns.length,
   "  Total misconfigurations: " ++ toString misconfigs.length]

/-- Lines 93-97: the top-20 table headings (printed before the sort runs). -/
def tableHeader : List String :=
  ["\n" ++ strRepeat "─" 70,
   "  TOP 20 VULNERABILITIES",
   strRepeat "─" 70,
   "  " ++ ljust "SEVERITY" 10 ++ " " ++ ljust "CVE" 20 ++ " " ++ ljust "PACKAGE" 20 ++ " "
     ++ ljust "FIXED" 15 ++ " TITLE",
   "  " ++ strRepeat "─" 66]

/-- Lines 106-112: the misconfiguration section (empty when there are none). -/
def misconfigSection (misconfigs : List Misconfig) : List String :=
  if misconfigs.isEmpty then []
  else
    ["\n" ++ strRepeat "─" 70, "  MISCONFIGURATIONS", strRepeat "─" 70]
      ++ (misconfigs.take 15).map misconfigRow

/-- Line 114: the closing rule. -/
def closingLine : List String := ["\n" ++ strRepeat "═" 70 ++ "\n"]

/-- Lines 73-114: `print_summary`.  Returns the lines actually printed and
whether the function ran to completion (`false` = the line-98 sort raised,
after the bar chart, totals and table headings were already printed). -/
def print_summary (vulns : List Vuln) (misconfigs : List Misconfig) (now : String) :
    List String × Bool :=
  let pre := summaryHeader now ++ barSection (tally vulns) ++ totalsSection vulns misconfigs
  if vulns.isEmpty then (pre ++ misconfigSection misconfigs ++ closingLine, true)
  else
    match sortVulns vulns with
    | none => (pre ++ tableHeader, false)
    | some sortedVulns =>
        (pre ++ tableHeader ++ (sortedVulns.take 20).map vulnRow
           ++ misconfigSection misconfigs ++ closingLine, true)

/-- The `--fail-on` argument: argparse restricts it to these four choices
(line 121), so the model carries that domain in the type. -/
inductive Threshold
  | CRITICAL
  | HIGH
  | MEDIUM
  | LOW
  deriving DecidableEq

/-- The literal string of a threshold choice. -/
def Threshold.str : Threshold → String
  | .CRITICAL => "CRITICAL"
  | .HIGH => "HIGH"
  | .MEDIUM => "MEDIUM"
  | .LOW => "LOW"

/-- Line 142: `threshold_idx = SEVERITY_ORDER.index(args.fail_on)` (the lookup
cannot fail because argparse already validated the choice). -/
def thresholdIdx (t : Threshold) : Nat := (sevIndex? t.str).getD 0

/-- Lines 143-146: the gate loop.  `some true` = some vulnerability tripped the
threshold (`[FAIL]`, exit 1); `some false` = the loop finished (`[PASS]`);
`none` = `SEVERITY_ORDER.index(v["severity"])` raised before any trip. -/
def gateScan (tIdx : Nat) : List Vuln → Option Bool
  | [] => some false
  | v :: rest =>
    match sevIndex? v.severity with
    | none => none
    | some i => if i ≤ tIdx then some true else gateScan tIdx rest

/-- Line 145. -/
def failLine (t : Threshold) : String :=
  "[FAIL] Found vulnerabilities at or above " ++ t.str ++ " severity."

/-- Line 148. -/
def passLine : String := "[PASS] Scan complete."

/-- The two exceptions caught at lines 131-136. -/
inductive LoadError
  | fileNotFound (path : String)
  | invalidJson (msg : String)
  deriving DecidableEq

/-- Lines 132 and 135: the `[ERROR]` line for each caught exception. -/
def errorLine : LoadError → String
  | .fileNotFound p => "[ERROR] File not found: " ++ p
  | .invalidJson m => "[ERROR] Invalid JSON: " ++ m

/-- Observable outcome of one run: process exit code, the sequence of printed
lines, whether an uncaught exception escaped, and the files written. -/
structure RunResult where
  exitCode : Nat
  lines : List String
  raised : Bool
  fileWrites : List (String × String)
  deriving DecidableEq

/-- Lines 117-148: `main` after argument parsing.  `load` abstracts
`parse_trivy_json(args.input)` (either the parsed document or one of the two
caught exceptions).  `output` is `args.output`: the script parses it at lines
123-124 and never reads it again, so no branch writes a file.  An uncaught
exception gives exit code 1 with `raised = true` and neither a `[FAIL]` nor a
`[PASS]` line. -/
def mainModel (load : Except LoadError TrivyDoc) (failOn : Option Threshold)
    (output : Option String) (now : String) : RunResult :=
  match load with
  | .error e => ⟨1, [errorLine e], false, []⟩
  | .ok data =>
    let vulns := extract_vulnerabilities data
    let misconfigs := extract_misconfigs data
    let s := print_summary vulns misconfigs now
    if s.2 then
      match failOn with
      | some t =>
        match gateScan (thresholdIdx t) vulns with
        | none => ⟨1, s.1, true, []⟩
        | some true => ⟨1, s.1 ++ [failLine t], false, []⟩
        | some false => ⟨0, s.1 ++ [passLine], false, []⟩
      | none => ⟨0, s.1 ++ [passLine], false, []⟩
    else ⟨1, s.1, true, []⟩

/-- Severity rank of an extracted record, for stating the gate condition:
the index in `SEVERITY_ORDER`, with the out-of-table default 5 (strictly below
every valid threshold rank, which is at most 3). -/
def sevRank (v : Vuln) : Nat := (sevIndex? v.severity).getD 5

/-! ### Concrete inputs used to evaluate the model -/

/-- A report with one HIGH and one LOW vulnerability (the gate example of the
specification). -/
def exampleDocHighLow : TrivyDoc :=
  ⟨some [⟨some "app", some
    [⟨some "p1", some "1.0", some "1.1", some "HIGH", some "CVE-2024-0001", some "overflow"⟩,
     ⟨some "p2", some "2.0", none, some "LOW", some "CVE-2024-0002", some "info leak"⟩],
    none⟩]⟩

/-- A report whose single result and vulnerability omit every optional field. -/
def exampleDocNoFields : TrivyDoc :=
  ⟨some [⟨none, some [⟨none, none, none, none, none, none⟩], none⟩]⟩

/-- A list of extracted vulnerabilities with duplicate severities. -/
def exampleVulnsMixed : List Vuln :=
  [⟨"t", "a", "1", "-", "LOW", "CVE-A", "ta"⟩,
   ⟨"t", "b", "1", "-", "CRITICAL", "CVE-B", "tb"⟩,
   ⟨"t", "c", "1", "-", "LOW", "CVE-C", "tc"⟩,
   ⟨"t", "d", "1", "-", "HIGH", "CVE-D", "td"⟩]

/-- A report carrying a severity string outside the fixed set. -/
def exampleDocBogus : TrivyDoc :=
  ⟨some [⟨some "app", some
    [⟨some "p", some "1", none, some "BOGUS", some "CVE-X", some "tx"⟩], none⟩]⟩

/-! ### Basic lemmas about the embedded operations -/

/-- `list.index` succeeds exactly on members. -/
theorem listIndex_isSome (s : String) (l : List String) :
    (listIndex s l).isSome = true ↔ s ∈ l := by
  induction l with
  | nil => simp [listIndex]
  | cons x xs ih =>
    by_cases h : x = s
    · subst h
      simp [listIndex]
    · have h' : ¬ s = x := fun hh => h hh.symm
      simp only [listIndex, if_neg h, List.mem_cons]
      cases hxs : listIndex s xs with
      | none =>
        rw [hxs] at ih
        simp only [Option.isSome_none, Bool.false_eq_true, false_iff] at ih
        simp [h', ih]
      | some i =>
        rw [hxs] at ih
        simp only [Option.isSome_some, true_iff] at ih
        simp [ih]

/-- `SEVERITY_ORDER.index` succeeds on recognized severities. -/
theorem sevIndex?_isSome {s : String} (h : s ∈ SEVERITY_ORDER) :
    (sevIndex? s).isSome = true :=
  (listIndex_isSome s SEVERITY_ORDER).2 h

/-- On members of `SEVERITY_ORDER` the two `getD` defaults agree: the severity
rank used to state the gate equals the sort key. -/
theorem sevKey_eq_sevRank (v : Vuln) (h : v.severity ∈ SEVERITY_ORDER) :
    sevKey v = sevRank v := by
  obtain ⟨i, hi⟩ := Option.isSome_iff_exists.1 (sevIndex?_isSome h)
  simp [sevKey, sevRank, hi]

/-- Unfolding of the `defaultdict` tally against an arbitrary accumulator. -/
theorem tally_foldl (sev : String) (vulns : List Vuln) : ∀ init : String → Nat,
    vulns.foldl (fun counts v s => if s = v.severity then counts s + 1 else counts s) init sev
      = init sev + (vulns.filter fun v => v.severity = sev).length := by
  induction vulns with
  | nil => intro init; simp
  | cons v rest ih =>
    intro init
    rw [List.foldl_cons, ih]
    show (if sev = v.severity then init sev + 1 else init sev)
        + (rest.filter fun v => v.severity = sev).length
      = init sev + ((v :: rest).filter fun v => v.severity = sev).length
    rw [List.filter_cons]
    by_cases h : v.severity = sev
    · rw [if_pos h.symm, if_pos (decide_eq_true h), List.length_cons]
      omega
    · rw [if_neg (fun hh : sev = v.severity => h hh.symm), if_neg (by simp [h])]

/-- The severity tally equals the number of extracted vulnerabilities carrying
that severity. -/
theorem tally_eq_count (vulns : List Vuln) (sev : String) :
    tally vulns sev = (vulns.filter fun v => v.severity = sev).length := by
  have h := tally_foldl sev vulns fun _ => 0
  simpa [tally] using h

/-- Length of a repeated string. -/
theorem length_strRepeat (s : String) (n : Nat) :
    (strRepeat s n).length = n * s.length := by
  induction n with
  | zero => simp [strRepeat]
  | succ k ih =>
    rw [strRepeat, String.length_append, ih]
    ring

/-- The gate loop, on a list whose severities are all recognized, decides
exactly the existence of a finding at or above the threshold rank. -/
theorem gateScan_eq (tIdx : Nat) (l : List Vuln)
    (h : ∀ v ∈ l, v.severity ∈ SEVERITY_ORDER) :
    gateScan tIdx l = some (decide (∃ v ∈ l, sevRank v ≤ tIdx)) := by
  induction l with
  | nil => simp [gateScan]
  | cons v rest ih =>
    obtain ⟨i, hi⟩ := Option.isSome_iff_exists.1
      (sevIndex?_isSome (h v (List.mem_cons_self v rest)))
    have hrank : sevRank v = i := by simp [sevRank, hi]
    rw [show gateScan tIdx (v :: rest)
        = (match sevIndex? v.severity with
           | none => none
           | some i => if i ≤ tIdx then some true else gateScan tIdx rest) from rfl, hi]
    show (if i ≤ tIdx then some true else gateScan tIdx rest)
        = some (decide (∃ w ∈ v :: rest, sevRank w ≤ tIdx))
    by_cases hle : i ≤ tIdx
    · have hex : ∃ w ∈ v :: rest, sevRank w ≤ tIdx :=
        ⟨v, List.mem_cons_self v rest, hrank ▸ hle⟩
      rw [if_pos hle, decide_eq_true hex]
    · rw [if_neg hle, ih fun w hw => h w (List.mem_cons_of_mem v hw)]
      have : (∃ w ∈ rest, sevRank w ≤ tIdx) ↔ ∃ w ∈ v :: rest, sevRank w ≤ tIdx := by
        constructor
        · rintro ⟨w, hw, hwle⟩
          exact ⟨w, List.mem_cons_of_mem v hw, hwle⟩
        · rintro ⟨w, hw, hwle⟩
          rcases List.mem_cons.1 hw with rfl | hw'
          · exact absurd (hrank ▸ hwle) hle
          · exact ⟨w, hw', hwle⟩
      exact congrArg some (decide_eq_decide.2 this)

/-- On a list whose severities are all recognized, the line-98 sort succeeds
and is insertion sort by severity key. -/
theorem sortVulns_eq (vulns : List Vuln)
    (h : ∀ v ∈ vulns, v.severity ∈ SEVERITY_ORDER) :
    sortVulns vulns = some (List.insertionSort vulnLE vulns) := by
  have hc : (vulns.all fun v => (sevIndex? v.severity).isSome) = true := by
    rw [List.all_eq_true]
    intro v hv
    exact (listIndex_isSome v.severity SEVERITY_ORDER).2 (h v hv)
  simp [sortVulns, hc]

/-- `print_summary` runs to completion whenever every severity is recognized. -/
theorem print_summary_ok (vulns : List Vuln) (misconfigs : List Misconfig) (now : String)
    (h : ∀ v ∈ vulns, v.severity ∈ SEVERITY_ORDER) :
    (print_summary vulns misconfigs now).2 = true := by
  unfold print_summary
  by_cases he : vulns.isEmpty
  · simp [he]
  · simp [he, sortVulns_eq vulns h]

/-- Stability of `orderedInsert` by key: the entries at one key value gain the
inserted element at their front exactly when it carries that key, and are
otherwise untouched (every element the insertion walks past has a strictly
smaller key). -/
theorem filter_key_orderedInsert (k : Nat) (a : Vuln) (l : List Vuln) :
    (List.orderedInsert vulnLE a l).filter (fun v => sevKey v = k)
      = if sevKey a = k then a :: l.filter (fun v => sevKey v = k)
        else l.filter (fun v => sevKey v = k) := by
  induction l with
  | nil =>
    simp only [List.orderedInsert, List.filter_cons, List.filter_nil]
    by_cases hak : sevKey a = k <;> simp [hak]
  | cons b l ih =>
    simp only [List.orderedInsert]
    by_cases hab : vulnLE a b
    · rw [if_pos hab, List.filter_cons]
      by_cases hak : sevKey a = k <;> simp [hak, List.filter_cons]
    · rw [if_neg hab, List.filter_cons, ih]
      have hb : sevKey b < sevKey a := by
        unfold vulnLE at hab
        omega
      by_cases hak : sevKey a = k
      · have hbk : ¬ sevKey b = k := by omega
        simp [hak, hbk]
      · simp [hak, List.filter_cons]

/-- Stability of the line-98 sort: the subsequence of entries at any given
severity key is exactly the one of the input. -/
theorem filter_key_insertionSort (k : Nat) (l : List Vuln) :
    (List.insertionSort vulnLE l).filter (fun v => sevKey v = k)
      = l.filter (fun v => sevKey v = k) := by
  induction l with
  | nil => rfl
  | cons a l ih =>
    show (List.orderedInsert vulnLE a (List.insertionSort vulnLE l)).filter _ = _
    rw [filter_key_orderedInsert, List.filter_cons, ih]
    by_cases hak : sevKey a = k <;> simp [hak]

/-- Distinct recognized severities have distinct indices. -/
theorem sevIndex?_inj {s1 s2 : String} (h1 : s1 ∈ SEVERITY_ORDER)
    (h2 : s2 ∈ SEVERITY_ORDER) (h : sevIndex? s1 = sevIndex? s2) : s1 = s2 := by
  fin_cases h1 <;> fin_cases h2 <;> revert h <;> decide

/-- Stability of the line-98 sort stated on severities: entries of equal
severity keep their original relative order. -/
theorem filter_severity_insertionSort (l : List Vuln) (s : String)
    (h : ∀ v ∈ l, v.severity ∈ SEVERITY_ORDER) :
    (List.insertionSort vulnLE l).filter (fun v => v.severity = s)
      = l.filter (fun v => v.severity = s) := by
  by_cases hs : s ∈ SEVERITY_ORDER
  · obtain ⟨ks, hks⟩ := Option.isSome_iff_exists.1 (sevIndex?_isSome hs)
    have key_iff : ∀ v : Vuln, v.severity ∈ SEVERITY_ORDER →
        (v.severity = s ↔ sevKey v = ks) := by
      intro v hv
      constructor
      · intro hvs
        show (sevIndex? v.severity).getD 0 = ks
        rw [hvs, hks]
        rfl
      · intro hkey
        obtain ⟨i, hi⟩ := Option.isSome_iff_exists.1 (sevIndex?_isSome hv)
        have hik : i = ks := by
          have : (sevIndex? v.severity).getD 0 = ks := hkey
          rw [hi] at this
          simpa using this
        exact sevIndex?_inj hv hs (by rw [hi, hks, hik])
    have e1 : (List.insertionSort vulnLE l).filter (fun v => v.severity = s)
        = (List.insertionSort vulnLE l).filter (fun v => sevKey v = ks) := by
      apply List.filter_congr
      intro v hv
      exact decide_eq_decide.2
        (key_iff v (h v ((List.perm_insertionSort vulnLE l).mem_iff.1 hv)))
    have e2 : l.filter (fun v => v.severity = s) = l.filter (fun v => sevKey v = ks) := by
      apply List.filter_congr
      intro v hv
      exact decide_eq_decide.2 (key_iff v (h v hv))
    rw [e1, e2, filter_key_insertionSort]
  · have e : ∀ m : List Vuln, (∀ v ∈ m, v.severity ∈ SEVERITY_ORDER) →
        m.filter (fun v => v.severity = s) = [] := by
      intro m hm
      rw [List.filter_eq_nil_iff]
      intro v hv
      simp only [decide_eq_true_eq]
      intro hvs
      exact hs (hvs ▸ hm v hv)
    rw [e _ fun v hv => h v ((List.perm_insertionSort vulnLE l).mem_iff.1 hv), e l h]

/-- Full behavior of `main` on a well-formed document with a threshold. -/
theorem mainModel_ok_gate (doc : TrivyDoc) (t : Threshold) (out : Option String) (now : String)
    (h : ∀ v ∈ extract_vulnerabilities doc, v.severity ∈ SEVERITY_ORDER) :
    mainModel (Except.ok doc) (some t) out now
      = if ∃ v ∈ extract_vulnerabilities doc, sevRank v ≤ thresholdIdx t
        then ⟨1, (print_summary (extract_vulnerabilities doc) (extract_misconfigs doc) now).1
                  ++ [failLine t], false, []⟩
        else ⟨0, (print_summary (extract_vulnerabilities doc) (extract_misconfigs doc) now).1
                  ++ [passLine], false, []⟩ := by
  have hok := print_summary_ok (extract_vulnerabilities doc) (extract_misconfigs doc) now h
  have hg := gateScan_eq (thresholdIdx t) (extract_vulnerabilities doc) h
  by_cases hex : ∃ v ∈ extract_vulnerabilities doc, sevRank v ≤ thresholdIdx t
  · rw [if_pos hex]
    rw [decide_eq_true hex] at hg
    simp [mainModel, hok, hg]
  · rw [if_neg hex]
    rw [decide_eq_false hex] at hg
    simp [mainModel, hok, hg]

/-! ### The claims -/

/-- C1: with a supplied threshold (necessarily one of CRITICAL/HIGH/MEDIUM/LOW,
the domain argparse enforces, carried here by `Threshold`) and recognized
severities, the run exits 1 and its final printed line is the `[FAIL]` line
iff some vulnerability's severity rank is at or above (numerically at most)
the threshold rank in the fixed order CRITICAL > HIGH > MEDIUM > LOW >
UNKNOWN; otherwise it exits 0 and its final line is the `[PASS]` line. -/
theorem gate_threshold_fail_iff (doc : TrivyDoc) (t : Threshold) (out : Option String)
    (now : String)
    (h : ∀ v ∈ extract_vulnerabilities doc, v.severity ∈ SEVERITY_ORDER) :
    ((mainModel (Except.ok doc) (some t) out now).exitCode = 1
        ↔ ∃ v ∈ extract_vulnerabilities doc, sevRank v ≤ thresholdIdx t) ∧
    ((mainModel (Except.ok doc) (some t) out now).exitCode = 0
        ↔ ¬ ∃ v ∈ extract_vulnerabilities doc, sevRank v ≤ thresholdIdx t) ∧
    (mainModel (Except.ok doc) (some t) out now).lines.getLast?
      = some (if (mainModel (Except.ok doc) (some t) out now).exitCode = 1
              then failLine t else passLine) := by
  rw [mainModel_ok_gate doc t out now h]
  by_cases hex : ∃ v ∈ extract_vulnerabilities doc, sevRank v ≤ thresholdIdx t
  · rw [if_pos hex]
    exact ⟨by simp [hex], by simp [hex], by simp [List.getLast?_concat]⟩
  · rw [if_neg hex]
    exact ⟨by simp [hex], by simp [hex], by simp [List.getLast?_concat]⟩

/-- Witness for C1 at the specification's own example: severities
[HIGH, LOW] with threshold HIGH make the run fail. -/
theorem gate_threshold_fail_iff_witness :
    (∀ v ∈ extract_vulnerabilities exampleDocHighLow, v.severity ∈ SEVERITY_ORDER) ∧
    (((mainModel (Except.ok exampleDocHighLow) (some Threshold.HIGH) none "").exitCode = 1
        ↔ ∃ v ∈ extract_vulnerabilities exampleDocHighLow,
            sevRank v ≤ thresholdIdx Threshold.HIGH) ∧
     ((mainModel (Except.ok exampleDocHighLow) (some Threshold.HIGH) none "").exitCode = 0
        ↔ ¬ ∃ v ∈ extract_vulnerabilities exampleDocHighLow,
            sevRank v ≤ thresholdIdx Threshold.HIGH) ∧
     (mainModel (Except.ok exampleDocHighLow) (some Threshold.HIGH) none "").lines.getLast?
       = some (if (mainModel (Except.ok exampleDocHighLow)
                    (some Threshold.HIGH) none "").exitCode = 1
               then failLine Threshold.HIGH else passLine)) :=
  ⟨by decide, gate_threshold_fail_iff exampleDocHighLow Threshold.HIGH none "" (by decide)⟩

/-- C2 (refuted, code bug): the `--output` option is parsed (lines 123-124)
but `args.output` is never read again, so no run writes any file — contrary
to the option's own help text and the specification, which promise a
plain-text copy of the summary at the given path. -/
theorem no_output_file_written (load : Except LoadError TrivyDoc)
    (failOn : Option Threshold) (out : Option String) (now : String) :
    (mainModel load failOn out now).fileWrites = [] := by
  cases load with
  | error e => rfl
  | ok data =>
    simp only [mainModel]
    split
    · split
      · split <;> rfl
      · rfl
    · rfl

/-- C3: a missing input file or malformed JSON prints exactly one `[ERROR]`
line carrying the documented text, exits 1, does not raise, writes nothing,
and prints no part of the summary (the single error line is the whole
output). -/
theorem loader_errors_fatal (p msg : String) (failOn : Option Threshold)
    (out : Option String) (now : String) :
    mainModel (Except.error (LoadError.fileNotFound p)) failOn out now
      = ⟨1, ["[ERROR] File not found: " ++ p], false, []⟩ ∧
    mainModel (Except.error (LoadError.invalidJson msg)) failOn out now
      = ⟨1, ["[ERROR] Invalid JSON: " ++ msg], false, []⟩ :=
  ⟨rfl, rfl⟩

/-- C4: a document with an empty or absent `Results` sequence yields empty
vulnerability and misconfiguration extractions, and the run passes (exit 0,
final `[PASS]` line) whatever threshold, if any, is supplied. -/
theorem empty_results_pass (doc : TrivyDoc)
    (h : doc.Results = none ∨ doc.Results = some [])
    (failOn : Option Threshold) (out : Option String) (now : String) :
    extract_vulnerabilities doc = [] ∧ extract_misconfigs doc = [] ∧
    (mainModel (Except.ok doc) failOn out now).exitCode = 0 ∧
    (mainModel (Except.ok doc) failOn out now).lines.getLast? = some passLine := by
  have hv : extract_vulnerabilities doc = [] := by
    rcases h with h | h <;> simp [extract_vulnerabilities, h]
  have hm : extract_misconfigs doc = [] := by
    rcases h with h | h <;> simp [extract_misconfigs, h]
  have hok : (print_summary (extract_vulnerabilities doc) (extract_misconfigs doc) now).2
      = true :=
    print_summary_ok _ _ _ (by simp [hv])
  refine ⟨hv, hm, ?_, ?_⟩
  · cases failOn with
    | none => simp [mainModel, hok]
    | some t =>
      have hg : gateScan (thresholdIdx t) (extract_vulnerabilities doc) = some false := by
        rw [hv]
        rfl
      simp [mainModel, hok, hg]
  · cases failOn with
    | none => simp [mainModel, hok, List.getLast?_concat]
    | some t =>
      have hg : gateScan (thresholdIdx t) (extract_vulnerabilities doc) = some false := by
        rw [hv]
        rfl
      simp [mainModel, hok, hg, List.getLast?_concat]

/-- Witness for C4: the document without a `Results` key passes under a
CRITICAL threshold. -/
theorem empty_results_pass_witness :
    ((⟨none⟩ : TrivyDoc).Results = none ∨ (⟨none⟩ : TrivyDoc).Results = some []) ∧
    (extract_vulnerabilities ⟨none⟩ = [] ∧ extract_misconfigs ⟨none⟩ = [] ∧
     (mainModel (Except.ok ⟨none⟩) (some Threshold.CRITICAL) none "").exitCode = 0 ∧
     (mainModel (Except.ok ⟨none⟩) (some Threshold.CRITICAL) none "").lines.getLast?
        = some passLine) :=
  ⟨Or.inl rfl, empty_results_pass ⟨none⟩ (Or.inl rfl) (some Threshold.CRITICAL) none ""⟩

/-- C5: for a non-empty vulnerability list whose severities are recognized,
the line-98 sort succeeds; the top-20 table source (`take 20` of the sorted
list) has at most 20 entries and ascends by severity rank under the fixed
order (index 0 = CRITICAL through 4 = UNKNOWN, so CRITICAL first), and the
sort is stable: for every severity, entries of that severity keep exactly
their original relative order. -/
theorem top20_sorted_stable (vulns : List Vuln) (_hne : vulns ≠ [])
    (h : ∀ v ∈ vulns, v.severity ∈ SEVERITY_ORDER) :
    ∃ sortedVulns, sortVulns vulns = some sortedVulns ∧
      (sortedVulns.take 20).length ≤ 20 ∧
      List.Pairwise (fun a b => sevRank a ≤ sevRank b) (sortedVulns.take 20) ∧
      (∀ s : String, sortedVulns.filter (fun v => v.severity = s)
          = vulns.filter (fun v => v.severity = s)) ∧
      sevIndex? "CRITICAL" = some 0 ∧ sevIndex? "HIGH" = some 1 ∧
      sevIndex? "MEDIUM" = some 2 ∧ sevIndex? "LOW" = some 3 ∧
      sevIndex? "UNKNOWN" = some 4 := by
  refine ⟨List.insertionSort vulnLE vulns, sortVulns_eq vulns h, ?_, ?_,
    fun s => filter_severity_insertionSort vulns s h,
    by decide, by decide, by decide, by decide, by decide⟩
  · rw [List.length_take]
    exact min_le_left _ _
  · have hp : List.Pairwise vulnLE ((List.insertionSort vulnLE vulns).take 20) :=
      List.Pairwise.sublist (List.take_sublist 20 _) (List.sorted_insertionSort vulnLE vulns)
    refine List.Pairwise.imp_of_mem ?_ hp
    intro a b ha hb hab
    have ha' : a ∈ vulns :=
      (List.perm_insertionSort vulnLE vulns).mem_iff.1 ((List.take_sublist 20 _).subset ha)
    have hb' : b ∈ vulns :=
      (List.perm_insertionSort vulnLE vulns).mem_iff.1 ((List.take_sublist 20 _).subset hb)
    have e1 := sevKey_eq_sevRank a (h a ha')
    have e2 := sevKey_eq_sevRank b (h b hb')
    unfold vulnLE at hab
    omega

/-- Witness for C5 on a four-element list with duplicate LOW severities. -/
theorem top20_sorted_stable_witness :
    exampleVulnsMixed ≠ [] ∧
    (∀ v ∈ exampleVulnsMixed, v.severity ∈ SEVERITY_ORDER) ∧
    (∃ sortedVulns, sortVulns exampleVulnsMixed = some sortedVulns ∧
      (sortedVulns.take 20).length ≤ 20 ∧
      List.Pairwise (fun a b => sevRank a ≤ sevRank b) (sortedVulns.take 20) ∧
      (∀ s : String, sortedVulns.filter (fun v => v.severity = s)
          = exampleVulnsMixed.filter (fun v => v.severity = s)) ∧
      sevIndex? "CRITICAL" = some 0 ∧ sevIndex? "HIGH" = some 1 ∧
      sevIndex? "MEDIUM" = some 2 ∧ sevIndex? "LOW" = some 3 ∧
      sevIndex? "UNKNOWN" = some 4) :=
  ⟨by decide, by decide, top20_sorted_stable exampleVulnsMixed (by decide) (by decide)⟩

/-- C6 (counterexample): a vulnerability inherited from a Result that omits
`Target` is extracted with target "unknown", which is neither the placeholder
"-" nor "UNKNOWN" — so the claimed default rule does not cover the inherited
target attribute. -/
theorem target_default_not_dash :
    (extract_vulnerabilities exampleDocNoFields).map (fun v => v.target) = ["unknown"] ∧
    ¬ (extract_vulnerabilities exampleDocNoFields).map (fun v => v.target) = ["-"] ∧
    ¬ (extract_vulnerabilities exampleDocNoFields).map (fun v => v.target) = ["UNKNOWN"] :=
  ⟨rfl, by decide, by decide⟩

/-- C6 (amended): each missing vulnerability field defaults to "-" ("UNKNOWN"
for a missing severity, and "-" then truncated for the title), while the
target inherited from the Result defaults to the distinct string "unknown"
when `Target` is missing; the record so built is among the extracted
vulnerabilities. -/
theorem missing_field_defaults (doc : TrivyDoc) (res : RawResult) (rv : RawVuln)
    (hres : res ∈ doc.Results.getD []) (hrv : rv ∈ res.Vulnerabilities.getD []) :
    ∃ v ∈ extract_vulnerabilities doc,
      v.target = res.Target.getD "unknown" ∧
      v.pkg = rv.PkgName.getD "-" ∧
      v.installed = rv.InstalledVersion.getD "-" ∧
      v.fixed = rv.FixedVersion.getD "-" ∧
      v.severity = rv.Severity.getD "UNKNOWN" ∧
      v.cve = rv.VulnerabilityID.getD "-" ∧
      v.title = pyTake 60 (rv.Title.getD "-") ∧
      (res.Target = none → v.target = "unknown") ∧
      (rv.FixedVersion = none → v.fixed = "-") ∧
      (rv.Severity = none → v.severity = "UNKNOWN") := by
  refine ⟨⟨res.Target.getD "unknown", rv.PkgName.getD "-", rv.InstalledVersion.getD "-",
    rv.FixedVersion.getD "-", rv.Severity.getD "UNKNOWN", rv.VulnerabilityID.getD "-",
    pyTake 60 (rv.Title.getD "-")⟩,
    List.mem_flatMap.2 ⟨res, hres, List.mem_map.2 ⟨rv, hrv, rfl⟩⟩,
    rfl, rfl, rfl, rfl, rfl, rfl, rfl, ?_, ?_, ?_⟩
  · intro ht
    rw [ht]
    rfl
  · intro hf
    rw [hf]
    rfl
  · intro hs
    rw [hs]
    rfl

/-- Witness for the amended C6 on the all-fields-missing report. -/
theorem missing_field_defaults_witness :
    (⟨none, some [⟨none, none, none, none, none, none⟩], none⟩ : RawResult)
        ∈ exampleDocNoFields.Results.getD [] ∧
    (⟨none, none, none, none, none, none⟩ : RawVuln)
        ∈ (⟨none, some [⟨none, none, none, none, none, none⟩], none⟩
            : RawResult).Vulnerabilities.getD [] ∧
    (∃ v ∈ extract_vulnerabilities exampleDocNoFields,
      v.target = (⟨none, some [⟨none, none, none, none, none, none⟩], none⟩
          : RawResult).Target.getD "unknown" ∧
      v.pkg = (⟨none, none, none, none, none, none⟩ : RawVuln).PkgName.getD "-" ∧
      v.installed = (⟨none, none, none, none, none, none⟩
          : RawVuln).InstalledVersion.getD "-" ∧
      v.fixed = (⟨none, none, none, none, none, none⟩ : RawVuln).FixedVersion.getD "-" ∧
      v.severity = (⟨none, none, none, none, none, none⟩ : RawVuln).Severity.getD "UNKNOWN" ∧
      v.cve = (⟨none, none, none, none, none, none⟩ : RawVuln).VulnerabilityID.getD "-" ∧
      v.title = pyTake 60 ((⟨none, none, none, none, none, none⟩ : RawVuln).Title.getD "-") ∧
      ((⟨none, some [⟨none, none, none, none, none, none⟩], none⟩
          : RawResult).Target = none → v.target = "unknown") ∧
      ((⟨none, none, none, none, none, none⟩ : RawVuln).FixedVersion = none →
        v.fixed = "-") ∧
      ((⟨none, none, none, none, none, none⟩ : RawVuln).Severity = none →
        v.severity = "UNKNOWN")) :=
  ⟨by decide, by decide,
    missing_field_defaults exampleDocNoFields
      ⟨none, some [⟨none, none, none, none, none, none⟩], none⟩
      ⟨none, none, none, none, none, none⟩ (by decide) (by decide)⟩

/-- C7: each severity bar line draws `min(count, 40)` bar characters — a
count above 40 draws exactly 40 — while the number printed on the line is the
true count: the tally equals the number of vulnerabilities of that severity
and is what both the bar and the printed number are built from. -/
theorem bar_capped_count_true (vulns : List Vuln) (sev : String) (c : Nat) :
    tally vulns sev = (vulns.filter fun v => v.severity = sev).length ∧
    (strRepeat "█" (min (tally vulns sev) 40)).length = min (tally vulns sev) 40 ∧
    (40 < c → (strRepeat "█" (min c 40)).length = 40) ∧
    sevLine (tally vulns) sev
      = "  " ++ color (ljust sev 10) sev ++ " "
          ++ color (strRepeat "█"
              (min ((vulns.filter fun v => v.severity = sev).length) 40)) sev
          ++ " " ++ toString ((vulns.filter fun v => v.severity = sev).length) := by
  have ht := tally_eq_count vulns sev
  refine ⟨ht, ?_, ?_, ?_⟩
  · rw [length_strRepeat, show ("█" : String).length = 1 from rfl, Nat.mul_one]
  · intro hc
    rw [length_strRepeat, show ("█" : String).length = 1 from rfl, Nat.mul_one]
    omega
  · show "  " ++ color (ljust sev 10) sev ++ " "
        ++ color (strRepeat "█" (min (tally vulns sev) 40)) sev
        ++ " " ++ toString (tally vulns sev) = _
    rw [ht]

/-- Witness for C7: an empty list has a LOW count of 0 and a zero-length bar,
and a hypothetical count of 41 draws a 40-character bar. -/
theorem bar_capped_count_true_witness :
    (tally [] "LOW" = (([] : List Vuln).filter fun v => v.severity = "LOW").length ∧
     (strRepeat "█" (min (tally [] "LOW") 40)).length = min (tally [] "LOW") 40 ∧
     (40 < 41 → (strRepeat "█" (min 41 40)).length = 40) ∧
     sevLine (tally []) "LOW"
       = "  " ++ color (ljust "LOW" 10) "LOW" ++ " "
           ++ color (strRepeat "█"
               (min ((([] : List Vuln).filter fun v => v.severity = "LOW").length) 40)) "LOW"
           ++ " " ++ toString ((([] : List Vuln).filter fun v => v.severity = "LOW").length))
    ∧ 40 < 41 :=
  ⟨bar_capped_count_true [] "LOW" 41, by decide⟩

/-- C8: the `[:60]` slice stores a title of 60 or fewer characters unchanged
and cuts a longer one to exactly its first 60 characters. -/
theorem title_truncated_60 (s : String) :
    (s.length ≤ 60 → pyTake 60 s = s) ∧
    (60 < s.length → (pyTake 60 s).length = 60 ∧ (pyTake 60 s).data = s.data.take 60) := by
  constructor
  · intro hle
    show String.mk (s.data.take 60) = s
    rw [List.take_of_length_le hle]
  · intro hgt
    constructor
    · show (s.data.take 60).length = 60
      rw [List.length_take]
      exact Nat.min_eq_left (Nat.le_of_lt hgt)
    · rfl

/-- Witness for C8 on a 5-character and a 61-character title. -/
theorem title_truncated_60_witness :
    (("short" : String).length ≤ 60 ∧ pyTake 60 "short" = "short") ∧
    (60 < (String.mk (List.replicate 61 'a')).length ∧
     (pyTake 60 (String.mk (List.replicate 61 'a'))).length = 60 ∧
     (pyTake 60 (String.mk (List.replicate 61 'a'))).data
        = (String.mk (List.replicate 61 'a')).data.take 60) :=
  ⟨⟨by decide, (title_truncated_60 "short").1 (by decide)⟩,
   by decide,
   ((title_truncated_60 (String.mk (List.replicate 61 'a'))).2 (by decide)).1,
   ((title_truncated_60 (String.mk (List.replicate 61 'a'))).2 (by decide)).2⟩

/-- C9: with at least one misconfiguration, the misconfiguration section is
its three headings followed by one `misconfigRow` (severity, identifier,
truncated title) per record of the first 15, at most 15 rows, and row `i`
renders exactly record `i` of the original extraction order. -/
theorem misconfig_first_15 (misconfigs : List Misconfig) (h : misconfigs ≠ []) :
    misconfigSection misconfigs
      = ["\n" ++ strRepeat "─" 70, "  MISCONFIGURATIONS", strRepeat "─" 70]
          ++ (misconfigs.take 15).map misconfigRow ∧
    ((misconfigs.take 15).map misconfigRow).length ≤ 15 ∧
    (∀ i : Nat, i < 15 →
      ((misconfigs.take 15).map misconfigRow)[i]? = misconfigs[i]?.map misconfigRow) := by
  refine ⟨?_, ?_, ?_⟩
  · have he : misconfigs.isEmpty = false := List.isEmpty_eq_false.2 h
    simp [misconfigSection, he]
  · rw [List.length_map, List.length_take]
    exact min_le_left _ _
  · intro i hi
    rw [List.getElem?_map, List.getElem?_take, if_pos hi]

/-- Witness for C9 on a two-record misconfiguration list. -/
theorem misconfig_first_15_witness :
    ([⟨"t", "ID-1", "LOW", "open port", "FAIL"⟩,
      ⟨"t", "ID-2", "HIGH", "root user", "FAIL"⟩] : List Misconfig) ≠ [] ∧
    (misconfigSection [⟨"t", "ID-1", "LOW", "open port", "FAIL"⟩,
        ⟨"t", "ID-2", "HIGH", "root user", "FAIL"⟩]
      = ["\n" ++ strRepeat "─" 70, "  MISCONFIGURATIONS", strRepeat "─" 70]
          ++ (([⟨"t", "ID-1", "LOW", "open port", "FAIL"⟩,
                ⟨"t", "ID-2", "HIGH", "root user", "FAIL"⟩]
              : List Misconfig).take 15).map misconfigRow ∧
     ((([⟨"t", "ID-1", "LOW", "open port", "FAIL"⟩,
         ⟨"t", "ID-2", "HIGH", "root user", "FAIL"⟩]
        : List Misconfig).take 15).map misconfigRow).length ≤ 15 ∧
     (∀ i : Nat, i < 15 →
       ((([⟨"t", "ID-1", "LOW", "open port", "FAIL"⟩,
           ⟨"t", "ID-2", "HIGH", "root user", "FAIL"⟩]
          : List Misconfig).take 15).map misconfigRow)[i]?
         = ([⟨"t", "ID-1", "LOW", "open port", "FAIL"⟩,
             ⟨"t", "ID-2", "HIGH", "root user", "FAIL"⟩]
            : List Misconfig)[i]?.map misconfigRow)) :=
  ⟨by decide,
    misconfig_first_15 [⟨"t", "ID-1", "LOW", "open port", "FAIL"⟩,
      ⟨"t", "ID-2", "HIGH", "root user", "FAIL"⟩] (by decide)⟩

/-- C10: a vulnerability whose severity lies outside the fixed set makes the
line-98 sort-key lookup fail (`sortVulns` yields no result) and makes the
gate's rank lookup on that record fail as well; the run aborts on the
uncaught exception (exit code 1, `raised = true`) after having already
printed the header, bar chart, totals and table headings — part of the
summary — and prints neither a `[FAIL]` nor a `[PASS]` line. -/
theorem unrecognized_severity_aborts (doc : TrivyDoc) (failOn : Option Threshold)
    (out : Option String) (now : String) (v : Vuln)
    (hv : v ∈ extract_vulnerabilities doc) (hbad : sevIndex? v.severity = none) :
    sortVulns (extract_vulnerabilities doc) = none ∧
    (∀ tIdx : Nat, gateScan tIdx [v] = none) ∧
    mainModel (Except.ok doc) failOn out now
      = ⟨1, summaryHeader now
            ++ barSection (tally (extract_vulnerabilities doc))
            ++ totalsSection (extract_vulnerabilities doc) (extract_misconfigs doc)
            ++ tableHeader, true, []⟩ := by
  have hso : sortVulns (extract_vulnerabilities doc) = none := by
    rw [sortVulns, if_neg]
    intro hall
    rw [List.all_eq_true] at hall
    have hvv := hall v hv
    simp [hbad] at hvv
  have hgate : ∀ tIdx : Nat, gateScan tIdx [v] = none := by
    intro tIdx
    show (match sevIndex? v.severity with
          | none => none
          | some i => if i ≤ tIdx then some true else gateScan tIdx []) = none
    rw [hbad]
  have hne : (extract_vulnerabilities doc).isEmpty = false :=
    List.isEmpty_eq_false.2 (List.ne_nil_of_mem hv)
  have hps : print_summary (extract_vulnerabilities doc) (extract_misconfigs doc) now
      = (summaryHeader now
          ++ barSection (tally (extract_vulnerabilities doc))
          ++ totalsSection (extract_vulnerabilities doc) (extract_misconfigs doc)
          ++ tableHeader, false) := by
    simp [print_summary, hne, hso]
  refine ⟨hso, hgate, ?_⟩
  simp [mainModel, hps]

/-- Witness for C10 on the report with severity "BOGUS". -/
theorem unrecognized_severity_aborts_witness :
    (⟨"app", "p", "1", "-", "BOGUS", "CVE-X", "tx"⟩ : Vuln)
        ∈ extract_vulnerabilities exampleDocBogus ∧
    sevIndex? (⟨"app", "p", "1", "-", "BOGUS", "CVE-X", "tx"⟩ : Vuln).severity = none ∧
    (sortVulns (extract_vulnerabilities exampleDocBogus) = none ∧
     (∀ tIdx : Nat,
        gateScan tIdx [⟨"app", "p", "1", "-", "BOGUS", "CVE-X", "tx"⟩] = none) ∧
     mainModel (Except.ok exampleDocBogus) (some Threshold.CRITICAL) none ""
       = ⟨1, summaryHeader ""
             ++ barSection (tally (extract_vulnerabilities exampleDocBogus))
             ++ totalsSection (extract_vulnerabilities exampleDocBogus)
                 (extract_misconfigs exampleDocBogus)
             ++ tableHeader, true, []⟩) :=
  ⟨by decide, by decide,
    unrecognized_severity_aborts exampleDocBogus (some Threshold.CRITICAL) none ""
      ⟨"app", "p", "1", "-", "BOGUS", "CVE-X", "tx"⟩ (by decide) (by decide)⟩

end ParseResults
